import Mathlib

/-!
Shallow embedding of `src/app.py` (video-to-faces registry).

The SQLite store is modelled as two in-memory tables (`videos`, `faces`)
plus the AUTOINCREMENT counters.  Real-valued columns (`fps`,
`timestamp_seconds`) are modelled as rationals; ids as naturals;
byte payloads as lists of naturals; the filesystem seen by the content
resolver as a partial map from paths to byte contents.

Each Lean definition carries the name of the Python function it embeds.
-/

/-- A row of the `videos` table (`id, filename, filepath, upload_date, fps`). -/
structure Video where
  id : Nat
  filename : String
  filepath : String
  upload_date : String
  fps : ℚ
deriving DecidableEq, Repr

/-- A row of the `faces` table
(`id, video_id, frame_number, timestamp_seconds, face_image_path, person_name, cluster_id`).
`person_name` is the nullable curator-assigned name (`none` = SQL NULL). -/
structure Face where
  id : Nat
  video_id : Nat
  frame_number : Int
  timestamp_seconds : ℚ
  face_image_path : String
  person_name : Option String
  cluster_id : Int
deriving DecidableEq, Repr

/-- The SQLite database: both tables plus the AUTOINCREMENT counters
(`nextVideoId`, `nextFaceId`), which start at 1. -/
structure Store where
  videos : List Video
  faces : List Face
  nextVideoId : Nat
  nextFaceId : Nat
deriving DecidableEq, Repr

def emptyStore : Store := ⟨[], [], 1, 1⟩

/-! ### Python `int(str)` parsing

`process_video` calls `int(...)` on the frame token and on the cluster
directory name.  Python's `int` strips surrounding whitespace, accepts an
optional sign, then a non-empty digit string in which single underscores
may separate digits. -/

/-- Continuation of the digit grammar after at least one digit has been read:
`('_'? digit)*`, accumulating the value. -/
def pyDigitsCore : List Char → Nat → Option Nat
  | [], acc => some acc
  | '_' :: c :: rest, acc =>
      if c.isDigit then pyDigitsCore rest (acc * 10 + (c.toNat - 48)) else none
  | ['_'], _ => none
  | c :: rest, acc =>
      if c.isDigit then pyDigitsCore rest (acc * 10 + (c.toNat - 48)) else none

/-- A non-empty Python digit string (`digit ('_'? digit)*`), its value. -/
def pyNatDigits : List Char → Option Nat
  | [] => none
  | c :: rest => if c.isDigit then pyDigitsCore rest (c.toNat - 48) else none

/-- Python `int(s)`: `none` models a `ValueError`. -/
def pyInt (s : String) : Option Int :=
  let cs := ((s.toList.dropWhile Char.isWhitespace).reverse.dropWhile
      Char.isWhitespace).reverse
  match cs with
  | '+' :: rest => (pyNatDigits rest).map (fun n => (n : Int))
  | '-' :: rest => (pyNatDigits rest).map (fun n => -(n : Int))
  | rest => (pyNatDigits rest).map (fun n => (n : Int))

/-! ### Filename parsing

`os.path.basename(p).split('.')[0].split('_')[0]` = the part of the base
name before the first `'.'`, then before the first `'_'`. -/

/-- The characters before the first occurrence of `sep`. -/
def takeUntil (sep : Char) : List Char → List Char
  | [] => []
  | c :: rest => if c = sep then [] else c :: takeUntil sep rest

/-- `basename.split('.')[0].split('_')[0]` from `process_video`. -/
def frame_token (basename : String) : String :=
  ⟨takeUntil '_' (takeUntil '.' basename.toList)⟩

/-! ### `get_all_data` -/

/-- One row of the dataframe produced by `get_all_data`'s SQL query
(`face_id, face_image_path, video_filename, video_filepath,
timestamp_seconds, name`). -/
structure FaceView where
  face_id : Nat
  face_image_path : String
  video_filename : String
  video_filepath : String
  timestamp_seconds : ℚ
  name : String
deriving DecidableEq, Repr

/-- `get_all_data`: the join `faces JOIN videos ON f.video_id = v.id` with
`COALESCE(f.person_name, 'Cluster ' || f.cluster_id) AS name`.  The query
has no ORDER BY; SQLite returns the rows in the scan order of `faces`,
i.e. the order of the `faces` list. -/
def get_all_data (s : Store) : List FaceView :=
  s.faces.filterMap fun f =>
    (s.videos.find? (fun v => v.id = f.video_id)).map fun v =>
      { face_id := f.id
        face_image_path := f.face_image_path
        video_filename := v.filename
        video_filepath := v.filepath
        timestamp_seconds := f.timestamp_seconds
        name := (f.person_name).getD ("Cluster " ++ toString f.cluster_id) }

/-! ### `filter_faces` -/

/-- Case-insensitive substring test, modelling
`df['name'].str.contains(name_filter, case=False)` (ASCII lowering). -/
def lowerChars (s : String) : List Char := s.toList.map Char.toLower

/-- Does `needle` occur at the head of `hay`? -/
def startsWithSeq : List Char → List Char → Bool
  | [], _ => true
  | _ :: _, [] => false
  | n :: ns, h :: hs => n = h && startsWithSeq ns hs

/-- Does `needle` occur anywhere in `hay`? -/
def containsSeq (needle : List Char) : List Char → Bool
  | [] => startsWithSeq needle []
  | c :: rest => startsWithSeq needle (c :: rest) || containsSeq needle rest

def containsCI (hay needle : String) : Bool :=
  containsSeq (lowerChars needle) (lowerChars hay)

/-- `filter_faces(video_filter, name_filter)`: the dataframe-filtering part.
The source renders the resulting rows, in this order, as an HTML grid via
`create_html_grid`; rendering is presentation and not modelled. -/
def filter_faces (s : Store) (video_filter name_filter : String) :
    List FaceView :=
  let df := get_all_data s
  let df := if video_filter ≠ "All"
    then df.filter (fun r => r.video_filename = video_filter) else df
  if name_filter ≠ "" then df.filter (fun r => containsCI r.name name_filter)
  else df

/-! ### `process_video` (ingest) -/

/-- Ingest input derived from the video path and the cv2 fps probe:
`os.path.basename(video_path)`, `os.path.abspath(video_path)`, the
`datetime.now()` string, and `cap.get(cv2.CAP_PROP_FPS)`. -/
structure VideoInput where
  filename : String
  filepath : String
  upload_date : String
  fps : ℚ
deriving DecidableEq, Repr

/-- One face image found by
`glob.glob(os.path.join(output_dir, "**/*.jpg"), recursive=True)`:
`dirname` = `os.path.basename(os.path.dirname(image_path))`,
`filebase` = `os.path.basename(image_path)`,
`abspath` = `os.path.abspath(image_path)`. -/
structure ImageFile where
  dirname : String
  filebase : String
  abspath : String
deriving DecidableEq, Repr

/-- The per-image body of `process_video`'s loop: parse `cluster_id` from
the directory name with fallback `-1`; parse `frame_number` from the
leading filename token (`none` = uncaught `ValueError`); derive
`timestamp_seconds = frame_number / fps if fps > 0 else 0`. -/
def mkFace (fid vid : Nat) (fps : ℚ) (img : ImageFile) : Option Face :=
  match pyInt (frame_token img.filebase) with
  | none => none
  | some fn =>
      some { id := fid
             video_id := vid
             frame_number := fn
             timestamp_seconds := if fps > 0 then (fn : ℚ) / fps else 0
             face_image_path := img.abspath
             person_name := none
             cluster_id := (pyInt img.dirname).getD (-1) }

/-- The `for image_path in face_images:` loop, accumulating the INSERTed
face rows; `none` as soon as one frame token fails to parse. -/
def insertFaces (vid : Nat) (fps : ℚ) : Nat → List ImageFile → Option (List Face)
  | _, [] => some []
  | fid, img :: rest =>
      match mkFace fid vid fps img with
      | none => none
      | some f => (insertFaces vid fps (fid + 1) rest).map (fun fs => f :: fs)

/-- `process_video`: INSERT one video row then all face rows, then
`conn.commit()`.  A `ValueError` from `int(filename_parts[0])` propagates
before the commit, so the uncommitted transaction is rolled back: the
result is `(s, none)` with the store exactly as before.  On success the
second component carries the newly created face rows. -/
def process_video (s : Store) (v : VideoInput) (images : List ImageFile) :
    Store × Option (List Face) :=
  match insertFaces s.nextVideoId v.fps s.nextFaceId images with
  | none => (s, none)
  | some fs =>
      ({ videos := s.videos ++
           [{ id := s.nextVideoId, filename := v.filename,
              filepath := v.filepath, upload_date := v.upload_date,
              fps := v.fps }]
         faces := s.faces ++ fs
         nextVideoId := s.nextVideoId + 1
         nextFaceId := s.nextFaceId + fs.length }, some fs)

/-! ### `rename_face` / `merge_faces` -/

/-- Outcome of `rename_face`: `prompt` is the early-return string
"Please select a face and enter a new name."; `updated c` is
"Updated {c} face." where `c = cursor.rowcount`. -/
inductive RenameStatus where
  | prompt : RenameStatus
  | updated : Nat → RenameStatus
deriving DecidableEq, Repr

/-- `rename_face(face_id, new_name)`.  `face_id` is `None` or an int
(from `get_face_id_from_path`); `not face_id` is true for `None` and `0`,
`not new_name` for the empty string.  Otherwise
`UPDATE faces SET person_name = ? WHERE id = ?` and report `rowcount`. -/
def rename_face (s : Store) (face_id : Option Nat) (new_name : String) :
    Store × RenameStatus :=
  if face_id = none ∨ face_id = some 0 ∨ new_name = "" then (s, .prompt)
  else
    ({ s with faces := s.faces.map fun f =>
        if some f.id = face_id then { f with person_name := some new_name }
        else f },
     .updated (s.faces.countP (fun f => some f.id = face_id)))

/-- Outcome of `merge_faces`: `prompt` is the early-return string
"Please select faces and enter a new name."; `merged c` is
"Merged {c} faces." where `c = cursor.rowcount`. -/
inductive MergeStatus where
  | prompt : MergeStatus
  | merged : Nat → MergeStatus
deriving DecidableEq, Repr

/-- `merge_faces(face_ids, new_name)`: guard on empty list / empty name,
then `UPDATE faces SET person_name = ? WHERE id IN (...)`; `rowcount`
counts the rows whose id appears in the list. -/
def merge_faces (s : Store) (face_ids : List Nat) (new_name : String) :
    Store × MergeStatus :=
  if face_ids = [] ∨ new_name = "" then (s, .prompt)
  else
    ({ s with faces := s.faces.map fun f =>
        if f.id ∈ face_ids then { f with person_name := some new_name }
        else f },
     .merged (s.faces.countP (fun f => f.id ∈ face_ids)))

/-! ### `get_face_id_from_path` (content resolver) -/

/-- One iteration of `get_face_id_from_path`'s loop: open both the
supplied path and the row's stored image, compare full contents, and
return the row's id on a byte-for-byte match; a
`FileNotFoundError`/`TypeError` on either open (modelled as `fsys`
returning `none`) skips the row.  `fsys` maps a path to its byte
content. -/
def resolveStep (fsys : String → Option (List Nat)) (path : String)
    (row : FaceView) : Option Nat :=
  match fsys path, fsys row.face_image_path with
  | some b1, some b2 => if b1 = b2 then some row.face_id else none
  | _, _ => none

/-- `get_face_id_from_path(path)`: scan the `get_all_data` rows in order
and return the first id whose stored image content equals the supplied
file's content, `None` if no row matches.  Read-only: the store is not
touched. -/
def get_face_id_from_path (s : Store) (fsys : String → Option (List Nat))
    (path : String) : Option Nat :=
  (get_all_data s).findSome? (resolveStep fsys path)

/-! ### Spec-side definitions -/

/-- Display-name rule as the spec words it: `person_name` if present,
else `"Cluster " + cluster_id` (refinement target for `get_all_data`). -/
def display_name_spec (pn : Option String) (cid : Int) : String :=
  match pn with
  | some n => n
  | none => "Cluster " ++ toString cid

/-! ### Example data -/

/-- Ingest input for a 5 fps video. -/
def exVideoInput : VideoInput :=
  ⟨"a.mp4", "/abs/a.mp4", "2020-01-01 00:00:00", 5⟩

/-- Two extractor outputs: cluster directory "2" with frame 10, and an
unparseable cluster directory "unclustered" with frame 5. -/
def exImgs : List ImageFile :=
  [⟨"2", "10_0.jpg", "/p1"⟩, ⟨"unclustered", "5_1.jpg", "/p2"⟩]

/-- The store produced by ingesting `exImgs` into the empty store. -/
def exStore : Store :=
  { videos := [⟨1, "a.mp4", "/abs/a.mp4", "2020-01-01 00:00:00", 5⟩]
    faces := [⟨1, 1, 10, 2, "/p1", none, 2⟩, ⟨2, 1, 5, 1, "/p2", none, -1⟩]
    nextVideoId := 2
    nextFaceId := 3 }

/-! ### Helper lemmas about ingest -/

lemma mkFace_eq_none_iff (fid vid : Nat) (fps : ℚ) (img : ImageFile) :
    mkFace fid vid fps img = none ↔ pyInt (frame_token img.filebase) = none := by
  unfold mkFace
  cases h : pyInt (frame_token img.filebase) <;> simp

lemma insertFaces_eq_none (vid : Nat) (fps : ℚ) (images : List ImageFile)
    (h : ∃ img ∈ images, pyInt (frame_token img.filebase) = none) :
    ∀ fid, insertFaces vid fps fid images = none := by
  induction images with
  | nil => simp at h
  | cons img rest ih =>
      intro fid
      unfold insertFaces
      cases hmk : mkFace fid vid fps img with
      | none => rfl
      | some f =>
          obtain ⟨img', hmem, hbad⟩ := h
          rcases List.mem_cons.mp hmem with rfl | hmem'
          · rw [(mkFace_eq_none_iff fid vid fps img').mpr hbad] at hmk
            exact absurd hmk (by simp)
          · rw [ih ⟨img', hmem', hbad⟩ (fid + 1)]
            rfl

lemma insertFaces_mem_spec (vid : Nat) (fps : ℚ) :
    ∀ (images : List ImageFile) (fid : Nat) (fs : List Face),
      insertFaces vid fps fid images = some fs →
      ∀ f ∈ fs, f.video_id = vid ∧ f.person_name = none ∧
        f.timestamp_seconds =
          (if fps > 0 then (f.frame_number : ℚ) / fps else 0) := by
  intro images
  induction images with
  | nil =>
      intro fid fs h f hf
      unfold insertFaces at h
      cases h
      simp at hf
  | cons img rest ih =>
      intro fid fs h f hf
      unfold insertFaces at h
      cases hmk : mkFace fid vid fps img with
      | none => rw [hmk] at h; cases h
      | some f0 =>
          rw [hmk] at h
          cases hrec : insertFaces vid fps (fid + 1) rest with
          | none => rw [hrec] at h; cases h
          | some fs' =>
              rw [hrec] at h
              simp only [Option.map_some'] at h
              cases h
              rcases List.mem_cons.mp hf with rfl | hmem
              · unfold mkFace at hmk
                cases hp : pyInt (frame_token img.filebase) with
                | none => rw [hp] at hmk; cases hmk
                | some fn =>
                    rw [hp] at hmk
                    cases hmk
                    exact ⟨rfl, rfl, rfl⟩
              · exact ih (fid + 1) fs' hrec f hmem

lemma insertFaces_cluster_spec (vid : Nat) (fps : ℚ) :
    ∀ (images : List ImageFile) (fid : Nat) (fs : List Face),
      insertFaces vid fps fid images = some fs →
      List.Forall₂ (fun (img : ImageFile) (f : Face) =>
        f.cluster_id = (pyInt img.dirname).getD (-1)) images fs := by
  intro images
  induction images with
  | nil =>
      intro fid fs h
      unfold insertFaces at h
      cases h
      exact List.Forall₂.nil
  | cons img rest ih =>
      intro fid fs h
      unfold insertFaces at h
      cases hmk : mkFace fid vid fps img with
      | none => rw [hmk] at h; cases h
      | some f0 =>
          rw [hmk] at h
          cases hrec : insertFaces vid fps (fid + 1) rest with
          | none => rw [hrec] at h; cases h
          | some fs' =>
              rw [hrec] at h
              simp only [Option.map_some'] at h
              cases h
              refine List.Forall₂.cons ?_ (ih (fid + 1) fs' hrec)
              unfold mkFace at hmk
              cases hp : pyInt (frame_token img.filebase) with
              | none => rw [hp] at hmk; cases hmk
              | some fn =>
                  rw [hp] at hmk
                  cases hmk
                  rfl

/-- C1: an unparseable leading frame-number segment in any discovered face
image makes the whole ingest fail with no rows written: the store after
`process_video` is exactly the store before, videos and faces included. -/
theorem process_video_parse_failure_atomic (s : Store) (v : VideoInput)
    (images : List ImageFile)
    (h : ∃ img ∈ images, pyInt (frame_token img.filebase) = none) :
    process_video s v images = (s, none) := by
  simp only [process_video, insertFaces_eq_none s.nextVideoId v.fps images h]

/-- Witness for C1 at a concrete input: the file `abc_0.jpg` has frame
token `abc`, which does not parse, so ingesting it changes nothing. -/
theorem process_video_parse_failure_atomic_witness :
    (∃ img ∈ [(⟨"2", "abc_0.jpg", "/p1"⟩ : ImageFile)],
        pyInt (frame_token img.filebase) = none) ∧
    process_video exStore exVideoInput [⟨"2", "abc_0.jpg", "/p1"⟩] =
      (exStore, none) :=
  ⟨by decide,
   process_video_parse_failure_atomic exStore exVideoInput
     [⟨"2", "abc_0.jpg", "/p1"⟩] (by decide)⟩

/-- Ingest input whose fps probe returned 0 ("unknown"). -/
def exVideoInput0 : VideoInput := ⟨"b.mp4", "/abs/b.mp4", "2020-01-02 00:00:00", 0⟩

/-- The store produced by ingesting `exImgs` at fps 0 into the empty store. -/
def exStore0 : Store :=
  { videos := [⟨1, "b.mp4", "/abs/b.mp4", "2020-01-02 00:00:00", 0⟩]
    faces := [⟨1, 1, 10, 0, "/p1", none, 2⟩, ⟨2, 1, 5, 0, "/p2", none, -1⟩]
    nextVideoId := 2
    nextFaceId := 3 }

/-- C8: every face row created by a successful ingest has
`timestamp_seconds = frame_number / fps` when the probed fps is positive,
and `0` otherwise; the created rows are exactly the ones appended to the
faces table. -/
theorem process_video_timestamp (s : Store) (v : VideoInput)
    (images : List ImageFile) (st : Store) (fs : List Face)
    (h : process_video s v images = (st, some fs)) :
    st.faces = s.faces ++ fs ∧
    ∀ f ∈ fs, f.timestamp_seconds =
      (if v.fps > 0 then (f.frame_number : ℚ) / v.fps else 0) := by
  unfold process_video at h
  cases hins : insertFaces s.nextVideoId v.fps s.nextFaceId images with
  | none =>
      rw [hins] at h
      injection h with h1 h2
      exact Option.noConfusion h2
  | some fs' =>
      rw [hins] at h
      injection h with h1 h2
      injection h2 with h2
      subst h1
      rw [← h2]
      exact ⟨rfl, fun f hf =>
        (insertFaces_mem_spec s.nextVideoId v.fps images s.nextFaceId fs'
          hins f hf).2.2⟩

/-- Witness for C8: ingesting `exImgs` (frames 10 and 5) at fps 0 gives
timestamps 0. -/
theorem process_video_timestamp_witness :
    process_video emptyStore exVideoInput0 exImgs =
      (exStore0, some exStore0.faces) ∧
    (exStore0.faces = emptyStore.faces ++ exStore0.faces ∧
     ∀ f ∈ exStore0.faces, f.timestamp_seconds =
       (if exVideoInput0.fps > 0 then (f.frame_number : ℚ) / exVideoInput0.fps
        else 0)) :=
  ⟨by decide,
   process_video_timestamp emptyStore exVideoInput0 exImgs exStore0
     exStore0.faces (by decide)⟩

/-- C9: during a successful ingest, a face image whose parent directory
name does not parse as a Python int still yields a face row, with
`cluster_id = -1`; the parse failure is recoverable, not fatal. -/
theorem process_video_cluster_fallback (s : Store) (v : VideoInput)
    (images : List ImageFile) (st : Store) (fs : List Face)
    (h : process_video s v images = (st, some fs)) :
    st.faces = s.faces ++ fs ∧
    List.Forall₂ (fun (img : ImageFile) (f : Face) =>
      pyInt img.dirname = none → f.cluster_id = -1) images fs := by
  unfold process_video at h
  cases hins : insertFaces s.nextVideoId v.fps s.nextFaceId images with
  | none =>
      rw [hins] at h
      injection h with h1 h2
      exact Option.noConfusion h2
  | some fs' =>
      rw [hins] at h
      injection h with h1 h2
      injection h2 with h2
      subst h1
      rw [← h2]
      refine ⟨rfl, ?_⟩
      refine (insertFaces_cluster_spec s.nextVideoId v.fps images
        s.nextFaceId fs' hins).imp ?_
      intro img f heq hnone
      rw [heq, hnone]
      rfl

/-- Witness for C9: in `exImgs` the directory "unclustered" does not
parse, and the corresponding row gets `cluster_id = -1`. -/
theorem process_video_cluster_fallback_witness :
    process_video emptyStore exVideoInput0 exImgs =
      (exStore0, some exStore0.faces) ∧
    (exStore0.faces = emptyStore.faces ++ exStore0.faces ∧
     List.Forall₂ (fun (img : ImageFile) (f : Face) =>
       pyInt img.dirname = none → f.cluster_id = -1) exImgs exStore0.faces) :=
  ⟨by decide,
   process_video_cluster_fallback emptyStore exVideoInput0 exImgs exStore0
     exStore0.faces (by decide)⟩

/-- C4: every row any read produces carries a display name computed at
read time from the face's stored fields by the COALESCE rule:
`person_name` when set, else `"Cluster " + cluster_id`.  No stored column
holds a display name; `Face` has none. -/
theorem get_all_data_display_name (s : Store) (row : FaceView)
    (hrow : row ∈ get_all_data s) :
    ∃ f ∈ s.faces, row.face_id = f.id ∧
      row.name = display_name_spec f.person_name f.cluster_id := by
  unfold get_all_data at hrow
  rw [List.mem_filterMap] at hrow
  obtain ⟨f, hf, hmap⟩ := hrow
  refine ⟨f, hf, ?_⟩
  cases hv : s.videos.find? (fun v => v.id = f.video_id) with
  | none => rw [hv] at hmap; cases hmap
  | some v =>
      rw [hv] at hmap
      simp only [Option.map_some'] at hmap
      injection hmap with hmap
      rw [← hmap]
      refine ⟨rfl, ?_⟩
      cases f.person_name <;> rfl

/-- Witness for C4: in `exStore`, face 2 has NULL `person_name` and
`cluster_id = -1`, and its view row shows "Cluster -1". -/
theorem get_all_data_display_name_witness :
    (⟨2, "/p2", "a.mp4", "/abs/a.mp4", 1, "Cluster -1"⟩ : FaceView) ∈
      get_all_data exStore ∧
    ∃ f ∈ exStore.faces,
      (⟨2, "/p2", "a.mp4", "/abs/a.mp4", 1, "Cluster -1"⟩ : FaceView).face_id
        = f.id ∧
      (⟨2, "/p2", "a.mp4", "/abs/a.mp4", 1, "Cluster -1"⟩ : FaceView).name
        = display_name_spec f.person_name f.cluster_id :=
  ⟨by decide,
   get_all_data_display_name exStore
     ⟨2, "/p2", "a.mp4", "/abs/a.mp4", 1, "Cluster -1"⟩ (by decide)⟩

/-- A face row with its sole curator-mutable column (`person_name`)
blanked; rename/merge must preserve this projection. -/
def face_core (f : Face) : Face := { f with person_name := none }

/-- C6: `rename_face` and `merge_faces` touch only `person_name`: the
`videos` table is untouched and every face keeps its id, video_id,
frame_number, timestamp_seconds, face_image_path and cluster_id. -/
theorem curation_mutates_only_person_name (s : Store) (fid : Option Nat)
    (ids : List Nat) (n1 n2 : String) :
    (rename_face s fid n1).1.videos = s.videos ∧
    (rename_face s fid n1).1.faces.map face_core = s.faces.map face_core ∧
    (merge_faces s ids n2).1.videos = s.videos ∧
    (merge_faces s ids n2).1.faces.map face_core = s.faces.map face_core := by
  unfold rename_face merge_faces
  refine ⟨?_, ?_, ?_, ?_⟩
  · split
    · rfl
    · rfl
  · split
    · rfl
    · simp only [List.map_map]
      refine List.map_congr_left ?_
      intro f _
      by_cases h : some f.id = fid <;> simp [face_core, h]
  · split
    · rfl
    · rfl
  · split
    · rfl
    · simp only [List.map_map]
      refine List.map_congr_left ?_
      intro f _
      by_cases h : f.id ∈ ids <;> simp [face_core, h]

/-- C5: merging the same non-empty id set with the same non-empty name a
second time leaves the store exactly as after the first merge. -/
theorem merge_faces_idempotent (s : Store) (ids : List Nat) (name : String)
    (h1 : ids ≠ []) (h2 : name ≠ "") :
    (merge_faces (merge_faces s ids name).1 ids name).1 =
      (merge_faces s ids name).1 := by
  have hc : ¬(ids = [] ∨ name = "") := by simp [h1, h2]
  unfold merge_faces
  rw [if_neg hc]
  simp only [if_neg hc]
  have : ∀ g : Face → Face, (∀ f, g (g f) = g f) →
      ∀ l : List Face, (l.map g).map g = l.map g := by
    intro g hg l
    rw [List.map_map]
    exact List.map_congr_left (fun f _ => hg f)
  have hfaces := this
    (fun f => if f.id ∈ ids then { f with person_name := some name } else f)
    (by
      intro f
      by_cases h : f.id ∈ ids <;> simp [h])
    s.faces
  simp only [hfaces]

/-- Witness for C5: merging faces 1 and 2 of `exStore` to "Bob" twice
equals merging once. -/
theorem merge_faces_idempotent_witness :
    (([1, 2] : List Nat) ≠ [] ∧ ("Bob" : String) ≠ "") ∧
    (merge_faces (merge_faces exStore [1, 2] "Bob").1 [1, 2] "Bob").1 =
      (merge_faces exStore [1, 2] "Bob").1 :=
  ⟨⟨by decide, by decide⟩,
   merge_faces_idempotent exStore [1, 2] "Bob" (by decide) (by decide)⟩

/-- With distinct face ids, at most one row has a given id. -/
lemma countP_id_le_one (l : List Face) (hnd : (l.map Face.id).Nodup)
    (fid : Nat) : l.countP (fun f => some f.id = some fid) ≤ 1 := by
  induction l with
  | nil => simp
  | cons f t ih =>
      rw [List.map_cons, List.nodup_cons] at hnd
      obtain ⟨hn, hnd'⟩ := hnd
      rw [List.countP_cons]
      by_cases h : f.id = fid
      · have ht : t.countP (fun g => some g.id = some fid) = 0 := by
          rw [List.countP_eq_zero]
          intro g hg
          simp only [decide_eq_true_eq, Option.some.injEq]
          intro hgid
          exact hn (hgid.trans h.symm ▸ List.mem_map_of_mem Face.id hg)
        rw [ht, if_pos (by simp [h])]
      · rw [if_neg (by simp [h])]
        simpa using ih hnd'

/-- C3 counterexample: `exStore` has no face with id 7, yet
`rename_face(7, "Bob")` does not fail — it reports the affected-row
count 0 (the source has no NotFoundError outcome at all). -/
theorem rename_face_missing_id_counterexample :
    (∀ f ∈ exStore.faces, f.id ≠ 7) ∧
    (rename_face exStore (some 7) "Bob").2 = RenameStatus.updated 0 :=
  ⟨by decide, by decide⟩

/-- C3 as amended: `rename_face` returns the input-prompt failure for a
missing/falsy faceId or an empty name; for any other faceId it returns an
affected-row count, which is at most 1 and is 0 exactly when no face row
has that id — a non-existent id yields count 0, not a NotFoundError. -/
theorem rename_face_affected_count (s : Store) (fid : Nat) (name : String)
    (hnd : (s.faces.map Face.id).Nodup) (hfid : fid ≠ 0)
    (hname : name ≠ "") :
    ((rename_face s none name).2 = RenameStatus.prompt ∧
     (rename_face s (some fid) "").2 = RenameStatus.prompt) ∧
    ∃ c, (rename_face s (some fid) name).2 = RenameStatus.updated c ∧
      c ≤ 1 ∧ (c = 0 ↔ ∀ f ∈ s.faces, f.id ≠ fid) := by
  have hneg : ¬(some fid = none ∨ (some fid : Option Nat) = some 0 ∨
      name = "") := by
    simp [hfid, hname]
  refine ⟨⟨?_, ?_⟩, ?_⟩
  · unfold rename_face
    rw [if_pos (Or.inl rfl)]
  · unfold rename_face
    rw [if_pos (Or.inr (Or.inr rfl))]
  · refine ⟨s.faces.countP (fun f => some f.id = some fid), ?_, ?_, ?_⟩
    · unfold rename_face
      rw [if_neg hneg]
    · exact countP_id_le_one s.faces hnd fid
    · rw [List.countP_eq_zero]
      constructor
      · intro h f hf
        have := h f hf
        simpa using this
      · intro h f hf
        simpa using h f hf

/-- Witness for the amended C3 at `exStore`, faceId 1, name "Alice". -/
theorem rename_face_affected_count_witness :
    ((exStore.faces.map Face.id).Nodup ∧ (1 : Nat) ≠ 0 ∧
      ("Alice" : String) ≠ "") ∧
    (((rename_face exStore none "Alice").2 = RenameStatus.prompt ∧
      (rename_face exStore (some 1) "").2 = RenameStatus.prompt) ∧
     ∃ c, (rename_face exStore (some 1) "Alice").2 = RenameStatus.updated c ∧
       c ≤ 1 ∧ (c = 0 ↔ ∀ f ∈ exStore.faces, f.id ≠ 1)) :=
  ⟨⟨by decide, by decide, by decide⟩,
   rename_face_affected_count exStore 1 "Alice" (by decide) (by decide)
     (by decide)⟩

/-- Two videos T1 (earlier upload) and T2, with faces inserted in the
order (T1, ts 5), (T1, ts 2), (T2, ts 1). -/
def exStore7 : Store :=
  { videos := [⟨1, "T1", "/v1", "2020-01-01 00:00:00", 1⟩,
               ⟨2, "T2", "/v2", "2020-01-02 00:00:00", 1⟩]
    faces := [⟨1, 1, 5, 5, "/q1", none, 0⟩, ⟨2, 1, 2, 2, "/q2", none, 0⟩,
              ⟨3, 2, 1, 1, "/q3", none, 0⟩]
    nextVideoId := 3
    nextFaceId := 4 }

/-- C7 counterexample: with faces at (T1,5), (T1,2), (T2,1) stored in that
insertion order, the unfiltered read returns them as [(T1,5), (T1,2),
(T2,1)] — not the claimed chronological order [(T1,2), (T1,5), (T2,1)]. -/
theorem chronological_order_counterexample :
    (filter_faces exStore7 "All" "").map
        (fun r => (r.video_filename, r.timestamp_seconds)) =
      [("T1", (5 : ℚ)), ("T1", 2), ("T2", 1)] ∧
    [("T1", (5 : ℚ)), ("T1", 2), ("T2", 1)] ≠
      [("T1", (2 : ℚ)), ("T1", 5), ("T2", 1)] :=
  ⟨by decide, by decide⟩

/-- C7 as amended: the read path performs no sorting at all — the
unfiltered query returns faces in the stored (insertion/id) order of the
faces table, each face that has its owning video, in table order. -/
theorem get_all_data_insertion_order (s : Store) :
    filter_faces s "All" "" = get_all_data s ∧
    (get_all_data s).map FaceView.face_id =
      (s.faces.filter
        (fun f => s.videos.any (fun v => v.id = f.video_id))).map Face.id := by
  constructor
  · rfl
  · unfold get_all_data
    generalize s.faces = l
    induction l with
    | nil => rfl
    | cons f t ih =>
        rw [List.filterMap_cons, List.filter_cons]
        cases hv : s.videos.find? (fun v => v.id = f.video_id) with
        | none =>
            have hany : (s.videos.any (fun v => v.id = f.video_id)) = false := by
              rw [List.any_eq_false]
              intro v hvmem
              have := List.find?_eq_none.mp hv v hvmem
              simpa using this
            simpa [hany] using ih
        | some v =>
            have hmem := List.mem_of_find?_eq_some hv
            have hp : v.id = f.video_id := by
              have := List.find?_some hv
              simpa using this
            have hany : (s.videos.any (fun v => v.id = f.video_id)) = true := by
              simp only [List.any_eq_true]
              exact ⟨v, hmem, by simpa using hp⟩
            simpa [hany] using ih

lemma resolveStep_eq_some (fsys : String → Option (List Nat)) (path : String)
    (p : List Nat) (hp : fsys path = some p) (row : FaceView)
    (hrow : fsys row.face_image_path = some p) :
    resolveStep fsys path row = some row.face_id := by
  unfold resolveStep
  rw [hp, hrow]
  simp

lemma resolveStep_eq_none (fsys : String → Option (List Nat)) (path : String)
    (p : List Nat) (hp : fsys path = some p) (row : FaceView)
    (hrow : fsys row.face_image_path ≠ some p) :
    resolveStep fsys path row = none := by
  unfold resolveStep
  rw [hp]
  cases h2 : fsys row.face_image_path with
  | none => rfl
  | some b2 =>
      have hne : p ≠ b2 := fun hEq => hrow (by rw [h2, hEq])
      simp [hne]

lemma findSome?_cons_eq {α β : Type} (f : α → Option β) (a : α)
    (l : List α) :
    List.findSome? f (a :: l) =
      match f a with
      | some b => some b
      | none => List.findSome? f l := rfl

/-- C2: when the supplied file is readable with content `p`, the resolver
returns the id of a stored face row whose image content is byte-for-byte
identical to `p` if one exists, and `None` when no stored face image has
identical content (so a visually identical but differently encoded copy
misses).  The resolver is a total read-only function of the store. -/
theorem get_face_id_from_path_content (s : Store)
    (fsys : String → Option (List Nat)) (path : String) (p : List Nat)
    (hp : fsys path = some p) :
    ((∃ row ∈ get_all_data s, fsys row.face_image_path = some p) →
      ∃ row ∈ get_all_data s, fsys row.face_image_path = some p ∧
        get_face_id_from_path s fsys path = some row.face_id) ∧
    ((∀ row ∈ get_all_data s, fsys row.face_image_path ≠ some p) →
      get_face_id_from_path s fsys path = none) := by
  unfold get_face_id_from_path
  generalize get_all_data s = l
  induction l with
  | nil =>
      constructor
      · rintro ⟨row, hmem, _⟩
        simp at hmem
      · intro
        rfl
  | cons r t ih =>
      constructor
      · rintro ⟨row, hmem, hcont⟩
        rcases List.mem_cons.mp hmem with rfl | hmem'
        · refine ⟨row, List.mem_cons_self row t, hcont, ?_⟩
          rw [findSome?_cons_eq, resolveStep_eq_some fsys path p hp row hcont]
        · by_cases hr : fsys r.face_image_path = some p
          · refine ⟨r, List.mem_cons_self r t, hr, ?_⟩
            rw [findSome?_cons_eq, resolveStep_eq_some fsys path p hp r hr]
          · obtain ⟨row', hm', hc', heq⟩ := ih.1 ⟨row, hmem', hcont⟩
            refine ⟨row', List.mem_cons_of_mem r hm', hc', ?_⟩
            rw [findSome?_cons_eq, resolveStep_eq_none fsys path p hp r hr]
            exact heq
      · intro hall
        rw [findSome?_cons_eq,
          resolveStep_eq_none fsys path p hp r (hall r (List.mem_cons_self r t))]
        exact ih.2 (fun row hm => hall row (List.mem_cons_of_mem r hm))

/-- Filesystem for the C2 witness: face 1's stored image `/p1` and the
gallery's temporary copy `/tmp/copy` hold the same bytes; `/p2` differs. -/
def exFsys : String → Option (List Nat) := fun q =>
  if q = "/p1" then some [255, 216, 7]
  else if q = "/tmp/copy" then some [255, 216, 7]
  else if q = "/p2" then some [9] else none

/-- Witness for C2: resolving the temporary copy of face 1's image. -/
theorem get_face_id_from_path_content_witness :
    exFsys "/tmp/copy" = some [255, 216, 7] ∧
    (((∃ row ∈ get_all_data exStore,
        exFsys row.face_image_path = some [255, 216, 7]) →
      ∃ row ∈ get_all_data exStore,
        exFsys row.face_image_path = some [255, 216, 7] ∧
        get_face_id_from_path exStore exFsys "/tmp/copy" = some row.face_id) ∧
    ((∀ row ∈ get_all_data exStore,
        exFsys row.face_image_path ≠ some [255, 216, 7]) →
      get_face_id_from_path exStore exFsys "/tmp/copy" = none)) :=
  ⟨by decide,
   get_face_id_from_path_content exStore exFsys "/tmp/copy" [255, 216, 7]
     (by decide)⟩

/-- Counting members of `M` in a duplicate-free list `L` is the same as
counting the distinct elements of `M` that lie in `L`. -/
lemma countP_mem_eq_dedup_filter_length (L M : List Nat) (hL : L.Nodup) :
    L.countP (fun i => i ∈ M) =
      (M.dedup.filter (fun i => i ∈ L)).length := by
  rw [List.countP_eq_length_filter]
  have h1 : (L.filter (fun i => decide (i ∈ M))).Nodup := hL.filter _
  have h2 : (M.dedup.filter (fun i => decide (i ∈ L))).Nodup :=
    (List.nodup_dedup M).filter _
  rw [← List.toFinset_card_of_nodup h1, ← List.toFinset_card_of_nodup h2]
  congr 1
  ext x
  simp only [List.mem_toFinset, List.mem_filter, List.mem_dedup,
    decide_eq_true_eq]
  exact and_comm

/-- C10: `merge_faces` succeeds even when some listed ids have no face
row — missing ids are silently ignored — and the reported count equals
the number of distinct listed ids that exist in the faces table. -/
theorem merge_faces_ignores_missing_ids (s : Store) (ids : List Nat)
    (name : String) (hnd : (s.faces.map Face.id).Nodup) (h1 : ids ≠ [])
    (h2 : name ≠ "") :
    (merge_faces s ids name).2 = MergeStatus.merged
      ((ids.dedup.filter
         (fun i => s.faces.any (fun f => f.id = i))).length) := by
  have hc : ¬(ids = [] ∨ name = "") := by simp [h1, h2]
  unfold merge_faces
  rw [if_neg hc]
  show MergeStatus.merged (s.faces.countP (fun f => f.id ∈ ids)) = _
  have hmap : s.faces.countP (fun f => f.id ∈ ids) =
      (s.faces.map Face.id).countP (fun i => i ∈ ids) := by
    rw [List.countP_map]
    rfl
  rw [hmap, countP_mem_eq_dedup_filter_length (s.faces.map Face.id) ids hnd]
  refine congrArg MergeStatus.merged
    (congrArg List.length (List.filter_congr ?_))
  intro i _
  rw [Bool.eq_iff_iff]
  simp only [decide_eq_true_eq, List.mem_map, List.any_eq_true]

/-- Witness for C10 at `exStore` (faces 1 and 2): ids 1, 2, a duplicate 2
and a missing 99 merge with count 2. -/
theorem merge_faces_ignores_missing_ids_witness :
    ((exStore.faces.map Face.id).Nodup ∧ ([1, 2, 2, 99] : List Nat) ≠ [] ∧
      ("Bob" : String) ≠ "") ∧
    (merge_faces exStore [1, 2, 2, 99] "Bob").2 = MergeStatus.merged
      (([1, 2, 2, 99] : List Nat).dedup.filter
        (fun i => exStore.faces.any (fun f => f.id = i))).length :=
  ⟨⟨by decide, by decide, by decide⟩,
   merge_faces_ignores_missing_ids exStore [1, 2, 2, 99] "Bob" (by decide)
     (by decide) (by decide)⟩
